import Mathlib

/-
Verification of the pdm publish credential-resolution workflow and the
install-pdm bootstrap script's requirement construction.

The publish implementation (pdm.cli.commands.publish) ships outside this
source tree; only its test suite is present.  Its data model and operations
are therefore modelled from the specification (spec.md), with behaviour the
tests pin down taken from the tests (src/tests/cli/test_publish.py), which
are repository code and authoritative where they speak.  The installer
definitions are translated directly from src/install-pdm.py.
-/

set_option autoImplicit false

namespace PdmPublish

/-- Modelled from the spec: an environment snapshot is an association list
from variable names to values, replacing ad hoc process-global lookups
(spec design note on layered configuration). -/
abbrev EnvMap := List (String × String)

/-- Lookup of one environment variable in a snapshot. -/
def getenv (env : EnvMap) (key : String) : Option String :=
  (List.find? (fun kv => kv.1 == key) env).map (fun kv => kv.2)

/-- Modelled from the spec: `RepositoryConfig` identifies one upload target:
name, upload url, optional username/password, optional CA-bundle path and a
tri-state TLS-verification flag (spec data model). -/
structure RepositoryConfig where
  name : String
  url : String
  username : Option String := none
  password : Option String := none
  ca_certs : Option String := none
  verify_ssl : Option Bool := none
deriving DecidableEq

/-- Modelled from the spec: the publish command's parsed CLI flags
(`--repository`, `--username`, `--password`, `--ca-certs`,
`--verify-ssl` / `--no-verify-ssl`). -/
structure PublishOptions where
  repository : Option String
  username : Option String
  password : Option String
  ca_certs : Option String
  verify_ssl : Bool
deriving DecidableEq

/-- Modelled from the spec: the single configuration-error kind used for all
resolution and OIDC failures, carrying the human-readable diagnostic message
written to the diagnostic stream. -/
structure PdmUsageError where
  msg : String
deriving DecidableEq

deriving instance DecidableEq for Except

/-- First-of-two option choice, mirroring Python's `a or b` on optional
strings treated as present-or-absent. -/
def orO (a b : Option String) : Option String :=
  match a with
  | some x => some x
  | none => b

/-- Modelled from the spec: the named repository configurations known by
default; `pypi` is the default target with url
`https://upload.pypi.org/legacy/`, and `testpypi` targets
`https://test.pypi.org/legacy/`. -/
def get_repository_config (name : String) : Option RepositoryConfig :=
  if name == "pypi" then
    some { name := "pypi", url := "https://upload.pypi.org/legacy/" }
  else if name == "testpypi" then
    some { name := "testpypi", url := "https://test.pypi.org/legacy/" }
  else
    none

/-- The repository name selected for a publish invocation: `--repository`,
else `PDM_PUBLISH_REPO`, else `"pypi"`. -/
def selected_repo_name (env : EnvMap) (opts : PublishOptions) : String :=
  (orO opts.repository (getenv env "PDM_PUBLISH_REPO")).getD "pypi"

/-- Modelled from the spec: `PublishCommand.get_repository` merges CLI flags
and environment variables over the named repository configuration, per field,
with the CLI flag highest and the environment variable next.  An affirmative
`verify_ssl` flag is not recorded (the tri-state stays as configured), as
pinned by `test_publish_cli_args_and_env_var_precedence`; only an explicit
negative flag writes the field. -/
def get_repository (env : EnvMap) (opts : PublishOptions) :
    Except PdmUsageError RepositoryConfig :=
  match get_repository_config (selected_repo_name env opts) with
  | none =>
      Except.error { msg := "Missing repository config of " ++ selected_repo_name env opts }
  | some base =>
      Except.ok { base with
        username := orO opts.username (orO (getenv env "PDM_PUBLISH_USERNAME") base.username)
        password := orO opts.password (orO (getenv env "PDM_PUBLISH_PASSWORD") base.password)
        ca_certs := orO opts.ca_certs (orO (getenv env "PDM_PUBLISH_CA_CERTS") base.ca_certs)
        verify_ssl := if opts.verify_ssl then base.verify_ssl else some false }

theorem get_repository_config_name {n : String} {b : RepositoryConfig}
    (h : get_repository_config n = some b) : b.name = n := by
  unfold get_repository_config at h
  by_cases h1 : n = "pypi"
  · subst h1; simp at h; simp [← h]
  · by_cases h2 : n = "testpypi"
    · subst h2; simp at h; simp [← h]
    · simp [h1, h2] at h

theorem get_repository_config_verify_ssl {n : String} {b : RepositoryConfig}
    (h : get_repository_config n = some b) : b.verify_ssl = none := by
  unfold get_repository_config at h
  by_cases h1 : n = "pypi"
  · subst h1; simp at h; simp [← h]
  · by_cases h2 : n = "testpypi"
    · subst h2; simp at h; simp [← h]
    · simp [h1, h2] at h

theorem get_repository_ok {env : EnvMap} {opts : PublishOptions}
    {cfg : RepositoryConfig} (hok : get_repository env opts = Except.ok cfg) :
    ∃ base, get_repository_config (selected_repo_name env opts) = some base ∧
      cfg = { base with
        username := orO opts.username (orO (getenv env "PDM_PUBLISH_USERNAME") base.username)
        password := orO opts.password (orO (getenv env "PDM_PUBLISH_PASSWORD") base.password)
        ca_certs := orO opts.ca_certs (orO (getenv env "PDM_PUBLISH_CA_CERTS") base.ca_certs)
        verify_ssl := if opts.verify_ssl then base.verify_ssl else some false } := by
  unfold get_repository at hok
  cases hlook : get_repository_config (selected_repo_name env opts) with
  | none => rw [hlook] at hok; exact absurd hok (by simp)
  | some base =>
      rw [hlook] at hok
      refine ⟨base, rfl, ?_⟩
      injection hok with h
      exact h.symm

/-- C1: credential and option resolution is per-field with fixed precedence:
for each of username, password and ca_certs, an explicit CLI value overrides
the corresponding `PDM_PUBLISH_*` environment variable, which overrides the
named repository configuration's value; the repository is selected by
`--repository`, else `PDM_PUBLISH_REPO`, and defaults to `pypi` with url
`https://upload.pypi.org/legacy/` when neither is given. -/
theorem publish_precedence (env : EnvMap) (opts : PublishOptions)
    (cfg base : RepositoryConfig)
    (hbase : get_repository_config (selected_repo_name env opts) = some base)
    (hok : get_repository env opts = Except.ok cfg) :
    ((∀ u, opts.username = some u → cfg.username = some u) ∧
      (∀ u, opts.username = none → getenv env "PDM_PUBLISH_USERNAME" = some u →
        cfg.username = some u) ∧
      (opts.username = none → getenv env "PDM_PUBLISH_USERNAME" = none →
        cfg.username = base.username)) ∧
    ((∀ p, opts.password = some p → cfg.password = some p) ∧
      (∀ p, opts.password = none → getenv env "PDM_PUBLISH_PASSWORD" = some p →
        cfg.password = some p) ∧
      (opts.password = none → getenv env "PDM_PUBLISH_PASSWORD" = none →
        cfg.password = base.password)) ∧
    ((∀ c, opts.ca_certs = some c → cfg.ca_certs = some c) ∧
      (∀ c, opts.ca_certs = none → getenv env "PDM_PUBLISH_CA_CERTS" = some c →
        cfg.ca_certs = some c) ∧
      (opts.ca_certs = none → getenv env "PDM_PUBLISH_CA_CERTS" = none →
        cfg.ca_certs = base.ca_certs)) ∧
    ((∀ r, opts.repository = some r → cfg.name = r) ∧
      (∀ r, opts.repository = none → getenv env "PDM_PUBLISH_REPO" = some r →
        cfg.name = r) ∧
      (opts.repository = none → getenv env "PDM_PUBLISH_REPO" = none →
        cfg.name = "pypi" ∧ cfg.url = "https://upload.pypi.org/legacy/")) := by
  obtain ⟨base', hbase', hcfg⟩ := get_repository_ok hok
  rw [hbase] at hbase'
  injection hbase' with hb
  subst hb
  subst hcfg
  have hname : base.name = selected_repo_name env opts := get_repository_config_name hbase
  refine ⟨⟨?_, ?_, ?_⟩, ⟨?_, ?_, ?_⟩, ⟨?_, ?_, ?_⟩, ⟨?_, ?_, ?_⟩⟩
  · intro u h; simp [orO, h]
  · intro u h1 h2; simp [orO, h1, h2]
  · intro h1 h2; simp [orO, h1, h2]
  · intro p h; simp [orO, h]
  · intro p h1 h2; simp [orO, h1, h2]
  · intro h1 h2; simp [orO, h1, h2]
  · intro c h; simp [orO, h]
  · intro c h1 h2; simp [orO, h1, h2]
  · intro h1 h2; simp [orO, h1, h2]
  · intro r h
    show base.name = r
    rw [hname]; simp [selected_repo_name, orO, h]
  · intro r h1 h2
    show base.name = r
    rw [hname]; simp [selected_repo_name, orO, h1, h2]
  · intro h1 h2
    have hsel : selected_repo_name env opts = "pypi" := by
      simp [selected_repo_name, orO, h1, h2]
    constructor
    · show base.name = "pypi"
      rw [hname, hsel]
    · show base.url = "https://upload.pypi.org/legacy/"
      rw [hsel] at hbase
      unfold get_repository_config at hbase
      simp at hbase
      simp [← hbase]

def envW : EnvMap :=
  [("PDM_PUBLISH_USERNAME", "bar"), ("PDM_PUBLISH_PASSWORD", "secret"),
   ("PDM_PUBLISH_CA_CERTS", "override.pem")]

def optsW : PublishOptions :=
  { repository := none, username := some "foo", password := none,
    ca_certs := some "custom.pem", verify_ssl := true }

/-- Witness for C1 at a concrete invocation: CLI username `foo` beats the
environment's `bar`, the environment password `secret` fills the absent CLI
flag, and with neither `--repository` nor `PDM_PUBLISH_REPO` the target is
`pypi` at `https://upload.pypi.org/legacy/`. -/
theorem publish_precedence_witness :
    get_repository_config (selected_repo_name envW optsW) =
      some { name := "pypi", url := "https://upload.pypi.org/legacy/" } ∧
    get_repository envW optsW = Except.ok
      { name := "pypi", url := "https://upload.pypi.org/legacy/",
        username := some "foo", password := some "secret",
        ca_certs := some "custom.pem", verify_ssl := none } ∧
    ((∀ u, optsW.username = some u →
        (some "foo" : Option String) = some u) ∧
      (optsW.repository = none → getenv envW "PDM_PUBLISH_REPO" = none →
        "pypi" = "pypi" ∧ "https://upload.pypi.org/legacy/" = "https://upload.pypi.org/legacy/")) := by
  have h := publish_precedence envW optsW
    { name := "pypi", url := "https://upload.pypi.org/legacy/",
      username := some "foo", password := some "secret",
      ca_certs := some "custom.pem", verify_ssl := none }
    { name := "pypi", url := "https://upload.pypi.org/legacy/" }
    (by decide) (by rfl)
  exact ⟨by decide, by rfl, fun u hu => h.1.1 u hu, fun h1 h2 => h.2.2.2.2.2 h1 h2⟩

/-- C9: an affirmative `verify_ssl` in the CLI namespace is normalised to the
unset tri-state value in the constructed `RepositoryConfig` rather than
recorded as an explicit `true`. -/
theorem verify_ssl_true_not_recorded (env : EnvMap) (opts : PublishOptions)
    (cfg : RepositoryConfig) (hssl : opts.verify_ssl = true)
    (hok : get_repository env opts = Except.ok cfg) :
    cfg.verify_ssl = none := by
  obtain ⟨base, hbase, hcfg⟩ := get_repository_ok hok
  subst hcfg
  show (if opts.verify_ssl then base.verify_ssl else some false) = none
  rw [hssl, if_pos rfl]
  exact get_repository_config_verify_ssl hbase

/-- Witness for C9: the concrete invocation of the precedence test, with
`verify_ssl := true` in the namespace, yields a config whose `verify_ssl`
is unset. -/
theorem verify_ssl_true_not_recorded_witness :
    optsW.verify_ssl = true ∧
    get_repository envW optsW = Except.ok
      { name := "pypi", url := "https://upload.pypi.org/legacy/",
        username := some "foo", password := some "secret",
        ca_certs := some "custom.pem", verify_ssl := none } ∧
    ({ name := "pypi", url := "https://upload.pypi.org/legacy/",
        username := some "foo", password := some "secret",
        ca_certs := some "custom.pem", verify_ssl := none : RepositoryConfig }).verify_ssl = none := by
  refine ⟨by decide, by rfl, ?_⟩
  exact verify_ssl_true_not_recorded envW optsW _ (by decide) (by rfl)

/-- Response of one OIDC endpoint call: HTTP status plus a flat string-valued
JSON object body. -/
structure HttpResponse where
  status : Nat
  fields : List (String × String)
deriving DecidableEq

/-- Lookup of a string field in a JSON object body. -/
def jsonStr (r : HttpResponse) (key : String) : Option String :=
  (List.find? (fun kv => kv.1 == key) r.fields).map (fun kv => kv.2)

/-- Whether an HTTP status is a success (2xx) status. -/
def is2xx (s : Nat) : Bool := decide (200 ≤ s) && decide (s < 300)

/-- One HTTP request issued to the index's OIDC endpoints. -/
inductive OidcRequest where
  | audienceGet
  | mintPost (identityToken : String)
deriving DecidableEq

/-- Modelled from the spec: the deterministic collaborators of one publish
invocation — the environment snapshot, the responses the index's OIDC
audience and mint-token endpoints would give, the identity token the CI
platform would issue, and the credential store's contents keyed by url. -/
structure PublishWorld where
  env : EnvMap
  audienceResponse : HttpResponse
  mintResponse : HttpResponse
  ciIdentityToken : String
  keyring : List (String × String × String)
deriving DecidableEq

/-- Outcome of CI-platform detection: no supported provider, a provider
detected but missing its token-source variables, or an identity token. -/
inductive DetectOutcome where
  | notDetected
  | ambientError (platform : String)
  | credential (token : String)
deriving DecidableEq

/-- Modelled from the spec: the GitHub Actions detector.  A set, nonempty
`GITHUB_ACTIONS` variable signals the platform; the identity token then
requires the `ACTIONS_ID_TOKEN_REQUEST_TOKEN` and
`ACTIONS_ID_TOKEN_REQUEST_URL` variables, whose absence is the
platform-misconfigured outcome.  Fetching the token from the request URL is
abstracted as the world's `ciIdentityToken`. -/
def detect_github (env : EnvMap) (ciIdentityToken : String) : Option DetectOutcome :=
  if (getenv env "GITHUB_ACTIONS").getD "" == "" then none
  else if (getenv env "ACTIONS_ID_TOKEN_REQUEST_TOKEN").isSome &&
      (getenv env "ACTIONS_ID_TOKEN_REQUEST_URL").isSome then
    some (DetectOutcome.credential ciIdentityToken)
  else
    some (DetectOutcome.ambientError "GitHub Actions")

/-- Modelled from the spec: a second provider variant with its own env-var
contract; `GITLAB_CI` marks the platform and `GITLAB_OIDC_TOKEN` carries the
identity token. -/
def detect_gitlab (env : EnvMap) (ciIdentityToken : String) : Option DetectOutcome :=
  if (getenv env "GITLAB_CI").getD "" == "" then none
  else if (getenv env "GITLAB_OIDC_TOKEN").isSome then
    some (DetectOutcome.credential ciIdentityToken)
  else
    some (DetectOutcome.ambientError "GitLab CI")

/-- Modelled from the spec: try each supported CI provider in turn; a
provider that does not recognise the environment passes to the next, and no
provider recognising it is the not-detected outcome.  The audience obtained
from the index scopes the identity token (abstracted in the world). -/
def detect_credential (w : PublishWorld) (_audience : String) : DetectOutcome :=
  match detect_github w.env w.ciIdentityToken with
  | some r => r
  | none =>
      match detect_gitlab w.env w.ciIdentityToken with
      | some r => r
      | none => DetectOutcome.notDetected

/-- Modelled from the spec and pinned by the tests: PyPI token minting via
OIDC.  The audience is fetched first (`GET {base}/_/oidc/audience`) and its
value is fed to CI-platform detection — the tests register the audience
response and mock `detect_credential` downstream of it — and the identity
token is then exchanged at `POST {base}/_/oidc/mint-token`.  The second
component records the HTTP requests issued to the OIDC endpoints, in order.
Every failure is the configuration-error kind with the diagnostic message the
tests assert on. -/
def get_pypi_token_via_oidc (w : PublishWorld) :
    Except PdmUsageError String × List OidcRequest :=
  if !(is2xx w.audienceResponse.status) then
    (Except.error { msg := "Failed to get PyPI token via OIDC" }, [OidcRequest.audienceGet])
  else
    match jsonStr w.audienceResponse "audience" with
    | none =>
        (Except.error { msg := "Failed to get PyPI token via OIDC" }, [OidcRequest.audienceGet])
    | some aud =>
        match detect_credential w aud with
        | DetectOutcome.notDetected =>
            (Except.error
              { msg := "This platform is not supported for trusted publishing via OIDC" },
              [OidcRequest.audienceGet])
        | DetectOutcome.ambientError p =>
            (Except.error { msg := "Unable to detect OIDC token for CI platform: " ++ p },
              [OidcRequest.audienceGet])
        | DetectOutcome.credential idTok =>
            if !(is2xx w.mintResponse.status) then
              (Except.error { msg := "Failed to get PyPI token via OIDC" },
                [OidcRequest.audienceGet, OidcRequest.mintPost idTok])
            else
              match jsonStr w.mintResponse "token" with
              | none =>
                  (Except.error { msg := "Failed to get PyPI token via OIDC" },
                    [OidcRequest.audienceGet, OidcRequest.mintPost idTok])
              | some tok =>
                  (Except.ok tok, [OidcRequest.audienceGet, OidcRequest.mintPost idTok])

/-- Modelled from the spec: credential-store lookup keyed by the upload url;
absence is a valid outcome, not an error. -/
def keyring_get_auth_info (store : List (String × String × String)) (url : String) :
    Option (String × String) :=
  (List.find? (fun e => e.1 == url) store).map (fun e => e.2)

/-- Modelled from the spec: the credential resolver.  A complete
username/password pair in the merged configuration wins; otherwise the
credential store is consulted by url; otherwise OIDC token minting is
attempted, a minted token becoming the pair `("__token__", token)`.  The
second component records the OIDC endpoint requests issued. -/
def resolve_credentials (w : PublishWorld) (cfg : RepositoryConfig) :
    Except PdmUsageError (String × String) × List OidcRequest :=
  match cfg.username, cfg.password with
  | some u, some p => (Except.ok (u, p), [])
  | _, _ =>
      match keyring_get_auth_info w.keyring cfg.url with
      | some up => (Except.ok up, [])
      | none =>
          match get_pypi_token_via_oidc w with
          | (Except.ok tok, reqs) => (Except.ok ("__token__", tok), reqs)
          | (Except.error e, reqs) => (Except.error e, reqs)

/-- The base64 alphabet (RFC 4648). -/
def base64Alphabet : List Char :=
  "ABCDEFGHIJKLMNOPQRSTUVWXYZabcdefghijklmnopqrstuvwxyz0123456789+/".toList

/-- Character at an index of the base64 alphabet. -/
def b64Char (n : Nat) : Char := base64Alphabet.getD n '?'

/-- Index of a character in the base64 alphabet. -/
def b64CharIndex (c : Char) : Nat := List.indexOf c base64Alphabet

/-- Base64 encoding of a byte list, with `=` padding. -/
def b64EncodeBytes : List Nat → List Char
  | [] => []
  | [a] => [b64Char (a / 4), b64Char (a % 4 * 16), '=', '=']
  | [a, b] => [b64Char (a / 4), b64Char (a % 4 * 16 + b / 16), b64Char (b % 16 * 4), '=']
  | a :: b :: c :: rest =>
      b64Char (a / 4) :: b64Char (a % 4 * 16 + b / 16) ::
        b64Char (b % 16 * 4 + c / 64) :: b64Char (c % 64) :: b64EncodeBytes rest

/-- Base64 decoding of a padded base64 character list back to bytes. -/
def b64DecodeChars : List Char → List Nat
  | a :: b :: '=' :: '=' :: [] => [b64CharIndex a * 4 + b64CharIndex b / 16]
  | a :: b :: c :: '=' :: [] =>
      [b64CharIndex a * 4 + b64CharIndex b / 16,
        b64CharIndex b % 16 * 16 + b64CharIndex c / 4]
  | a :: b :: c :: d :: rest =>
      (b64CharIndex a * 4 + b64CharIndex b / 16) ::
        (b64CharIndex b % 16 * 16 + b64CharIndex c / 4) ::
          (b64CharIndex c % 4 * 64 + b64CharIndex d) :: b64DecodeChars rest
  | _ => []

/-- The bytes of an ASCII string. -/
def asciiBytes (s : String) : List Nat := s.toList.map Char.toNat

/-- The string spelt by a byte list. -/
def bytesToString (bs : List Nat) : String := String.mk (bs.map Char.ofNat)

/-- HTTP Basic authentication as installed on the client session; the header
value is `Basic ` followed by the base64 of `username:password`. -/
structure BasicAuth where
  username : String
  password : String
deriving DecidableEq

/-- The `Authorization` header value of a Basic authentication. -/
def BasicAuth.authHeader (a : BasicAuth) : String :=
  "Basic " ++ String.mk (b64EncodeBytes (asciiBytes (a.username ++ ":" ++ a.password)))

/-- Modelled from the spec: `Repository` construction resolves credentials
and installs them as HTTP Basic authentication on the session (a minted token
uses the `__token__` sentinel username). -/
def repository_session_auth (w : PublishWorld) (cfg : RepositoryConfig) :
    Except PdmUsageError BasicAuth :=
  match resolve_credentials w cfg with
  | (Except.ok (u, p), _) => Except.ok { username := u, password := p }
  | (Except.error e, _) => Except.error e

/-- Whether `pat` occurs starting at the head of the character list. -/
def listStartsWith : List Char → List Char → Bool
  | _, [] => true
  | [], _ :: _ => false
  | a :: as, b :: bs => a == b && listStartsWith as bs

/-- Substring containment test on strings. -/
def strContainsSub (s pat : String) : Bool :=
  (List.range (s.toList.length + 1)).any
    (fun i => listStartsWith (s.toList.drop i) pat.toList)

/-- Python's `str.startswith`, structurally on the character list. -/
def str_startswith (s pre : String) : Bool := listStartsWith s.toList pre.toList

/-- Python's `str.endswith`, structurally on the reversed character list. -/
def str_endswith (s post : String) : Bool :=
  listStartsWith s.toList.reverse post.toList.reverse

/-- C2: OIDC success path — when the audience endpoint answers
`audience = testpypi` and the mint-token endpoint answers
`token = minted_oidc_token`, and a CI provider supplies an identity token,
the repository session's resolved authentication is HTTP Basic for the pair
`("__token__", "minted_oidc_token")`; decoding the Basic header after the
`Basic ` marker yields the colon-joined string
`__token__:minted_oidc_token`. -/
theorem oidc_success_path (w : PublishWorld) (cfg : RepositoryConfig) (idTok : String)
    (hu : cfg.username = none) (hp : cfg.password = none)
    (hk : keyring_get_auth_info w.keyring cfg.url = none)
    (haud : w.audienceResponse = { status := 200, fields := [("audience", "testpypi")] })
    (hmint : w.mintResponse = { status := 200, fields := [("token", "minted_oidc_token")] })
    (hdet : detect_credential w "testpypi" = DetectOutcome.credential idTok) :
    repository_session_auth w cfg =
      Except.ok { username := "__token__", password := "minted_oidc_token" } ∧
    bytesToString (b64DecodeChars
      (((BasicAuth.authHeader
        { username := "__token__", password := "minted_oidc_token" }).toList).drop 6)) =
      "__token__" ++ ":" ++ "minted_oidc_token" := by
  have hoidc : get_pypi_token_via_oidc w =
      (Except.ok "minted_oidc_token", [OidcRequest.audienceGet, OidcRequest.mintPost idTok]) := by
    simp [get_pypi_token_via_oidc, haud, hmint, hdet, jsonStr, is2xx]
  have hres : resolve_credentials w cfg =
      (Except.ok ("__token__", "minted_oidc_token"),
        [OidcRequest.audienceGet, OidcRequest.mintPost idTok]) := by
    simp [resolve_credentials, hu, hp, hk, hoidc]
  constructor
  · simp [repository_session_auth, hres]
  · decide

/-- Concrete world of the OIDC success test: a well-configured GitHub Actions
environment, audience `testpypi`, minted token `minted_oidc_token`, empty
credential store. -/
def wOidc : PublishWorld :=
  { env := [("GITHUB_ACTIONS", "true"),
      ("ACTIONS_ID_TOKEN_REQUEST_TOKEN", "request-token"),
      ("ACTIONS_ID_TOKEN_REQUEST_URL", "https://actions.example/token")],
    audienceResponse := { status := 200, fields := [("audience", "testpypi")] },
    mintResponse := { status := 200, fields := [("token", "minted_oidc_token")] },
    ciIdentityToken := "A_OIDC_TOKEN",
    keyring := [] }

/-- Upload target of the OIDC tests: `https://test.org/upload`, no stored
credentials. -/
def cfgOidc : RepositoryConfig := { name := "test", url := "https://test.org/upload" }

/-- Witness for C2 at the concrete test world. -/
theorem oidc_success_path_witness :
    detect_credential wOidc "testpypi" = DetectOutcome.credential "A_OIDC_TOKEN" ∧
    repository_session_auth wOidc cfgOidc =
      Except.ok { username := "__token__", password := "minted_oidc_token" } ∧
    bytesToString (b64DecodeChars
      (((BasicAuth.authHeader
        { username := "__token__", password := "minted_oidc_token" }).toList).drop 6)) =
      "__token__" ++ ":" ++ "minted_oidc_token" := by
  have h := oidc_success_path wOidc cfgOidc "A_OIDC_TOKEN" rfl rfl rfl rfl rfl (by decide)
  exact ⟨by decide, h.1, h.2⟩

/-- Concrete world with no CI environment at all, a healthy audience endpoint
and a healthy mint endpoint. -/
def wNoCi : PublishWorld :=
  { env := [],
    audienceResponse := { status := 200, fields := [("audience", "testpypi")] },
    mintResponse := { status := 200, fields := [("token", "tok")] },
    ciIdentityToken := "unused",
    keyring := [] }

/-- C3 counterexample: in a world where no supported CI provider is detected,
minting does fail, but the GET request to the audience endpoint has been made
(detection runs on the fetched audience, so it cannot precede the fetch), and
the diagnostic `This platform is not supported for trusted publishing via
OIDC` does not contain the claimed text `platform not supported for trusted
publishing via OIDC`. -/
theorem oidc_detection_first_counterexample :
    detect_credential wNoCi "testpypi" = DetectOutcome.notDetected ∧
    (get_pypi_token_via_oidc wNoCi).2 = [OidcRequest.audienceGet] ∧
    List.contains (get_pypi_token_via_oidc wNoCi).2 OidcRequest.audienceGet = true ∧
    (get_pypi_token_via_oidc wNoCi).1 = Except.error
      { msg := "This platform is not supported for trusted publishing via OIDC" } ∧
    strContainsSub "This platform is not supported for trusted publishing via OIDC"
      "platform not supported for trusted publishing via OIDC" = false := by
  decide

/-- C3 (amended): the audience fetch is the first step and precedes
CI-platform detection, which consumes the fetched audience: for every world
whose audience endpoint answers 2xx with an audience value and in whose
environment no supported CI provider is detected, minting fails with the
configuration error `This platform is not supported for trusted publishing
via OIDC` (which contains `not supported for trusted publishing via OIDC`),
the one HTTP request issued being the audience GET — in particular no
mint-token request is made. -/
theorem oidc_platform_undetected (w : PublishWorld) (aud : String)
    (h2 : is2xx w.audienceResponse.status = true)
    (hj : jsonStr w.audienceResponse "audience" = some aud)
    (hdet : detect_credential w aud = DetectOutcome.notDetected) :
    get_pypi_token_via_oidc w =
      (Except.error
        { msg := "This platform is not supported for trusted publishing via OIDC" },
        [OidcRequest.audienceGet]) ∧
    strContainsSub "This platform is not supported for trusted publishing via OIDC"
      "not supported for trusted publishing via OIDC" = true := by
  constructor
  · simp [get_pypi_token_via_oidc, h2, hj, hdet]
  · decide

/-- Witness for the amended C3 at the concrete no-CI world. -/
theorem oidc_platform_undetected_witness :
    is2xx wNoCi.audienceResponse.status = true ∧
    jsonStr wNoCi.audienceResponse "audience" = some "testpypi" ∧
    detect_credential wNoCi "testpypi" = DetectOutcome.notDetected ∧
    get_pypi_token_via_oidc wNoCi =
      (Except.error
        { msg := "This platform is not supported for trusted publishing via OIDC" },
        [OidcRequest.audienceGet]) := by
  have h := oidc_platform_undetected wNoCi "testpypi" (by decide) (by decide) (by decide)
  exact ⟨by decide, by decide, by decide, h.1⟩

/-- C4: for every non-2xx audience response, minting fails as the
configuration-error kind with a diagnostic containing
`Failed to get PyPI token via OIDC`, and no request to the mint-token
endpoint is attempted — the only request issued is the audience GET. -/
theorem oidc_audience_failure (w : PublishWorld)
    (h2 : is2xx w.audienceResponse.status = false) :
    get_pypi_token_via_oidc w =
      (Except.error { msg := "Failed to get PyPI token via OIDC" },
        [OidcRequest.audienceGet]) ∧
    strContainsSub "Failed to get PyPI token via OIDC"
      "Failed to get PyPI token via OIDC" = true ∧
    (∀ t, ¬ OidcRequest.mintPost t ∈ (get_pypi_token_via_oidc w).2) := by
  have h1 : get_pypi_token_via_oidc w =
      (Except.error { msg := "Failed to get PyPI token via OIDC" },
        [OidcRequest.audienceGet]) := by
    simp [get_pypi_token_via_oidc, h2]
  refine ⟨h1, by decide, ?_⟩
  intro t ht
  rw [h1] at ht
  simp at ht

/-- Concrete world of the audience-failure test: a 502 from the audience
endpoint. -/
def w502 : PublishWorld :=
  { env := [("GITHUB_ACTIONS", "true")],
    audienceResponse := { status := 502, fields := [] },
    mintResponse := { status := 200, fields := [("token", "tok")] },
    ciIdentityToken := "unused",
    keyring := [] }

/-- Witness for C4 at the 502 world. -/
theorem oidc_audience_failure_witness :
    is2xx w502.audienceResponse.status = false ∧
    get_pypi_token_via_oidc w502 =
      (Except.error { msg := "Failed to get PyPI token via OIDC" },
        [OidcRequest.audienceGet]) := by
  have h := oidc_audience_failure w502 (by decide)
  exact ⟨by decide, h.1⟩

/-- C5: whenever the `GITHUB_ACTIONS` marker is set (nonempty) but the
token-source variables `ACTIONS_ID_TOKEN_REQUEST_TOKEN` and
`ACTIONS_ID_TOKEN_REQUEST_URL` are absent, and the audience fetch succeeds,
minting fails with a usage error whose diagnostic contains
`Unable to detect OIDC token for CI platform:` and names the platform —
a message distinct from the platform-undetected diagnostic. -/
theorem oidc_github_misconfigured (w : PublishWorld) (aud v : String)
    (h2 : is2xx w.audienceResponse.status = true)
    (hj : jsonStr w.audienceResponse "audience" = some aud)
    (hmark : getenv w.env "GITHUB_ACTIONS" = some v)
    (hv : (v == "") = false)
    (htok : getenv w.env "ACTIONS_ID_TOKEN_REQUEST_TOKEN" = none)
    (hurl : getenv w.env "ACTIONS_ID_TOKEN_REQUEST_URL" = none) :
    get_pypi_token_via_oidc w =
      (Except.error
        { msg := "Unable to detect OIDC token for CI platform: GitHub Actions" },
        [OidcRequest.audienceGet]) ∧
    strContainsSub "Unable to detect OIDC token for CI platform: GitHub Actions"
      "Unable to detect OIDC token for CI platform:" = true ∧
    strContainsSub "Unable to detect OIDC token for CI platform: GitHub Actions"
      "GitHub Actions" = true ∧
    "Unable to detect OIDC token for CI platform: GitHub Actions" ≠
      "This platform is not supported for trusted publishing via OIDC" := by
  have hdet : detect_credential w aud = DetectOutcome.ambientError "GitHub Actions" := by
    simp [detect_credential, detect_github, hmark, hv, htok, hurl]
  refine ⟨?_, by decide, by decide, by decide⟩
  simp [get_pypi_token_via_oidc, h2, hj, hdet]

/-- Concrete world of the misconfigured-GitHub test: only the
`GITHUB_ACTIONS` marker is set. -/
def wGithubBare : PublishWorld :=
  { env := [("GITHUB_ACTIONS", "true")],
    audienceResponse := { status := 200, fields := [("audience", "testpypi")] },
    mintResponse := { status := 200, fields := [("token", "tok")] },
    ciIdentityToken := "unused",
    keyring := [] }

/-- Witness for C5 at the bare-marker world. -/
theorem oidc_github_misconfigured_witness :
    getenv wGithubBare.env "GITHUB_ACTIONS" = some "true" ∧
    getenv wGithubBare.env "ACTIONS_ID_TOKEN_REQUEST_TOKEN" = none ∧
    get_pypi_token_via_oidc wGithubBare =
      (Except.error
        { msg := "Unable to detect OIDC token for CI platform: GitHub Actions" },
        [OidcRequest.audienceGet]) := by
  have h := oidc_github_misconfigured wGithubBare "testpypi" "true"
    (by decide) (by decide) (by decide) (by decide) (by decide) (by decide)
  exact ⟨by decide, by decide, h.1⟩

/-- C6: credential-store fallback — when the merged configuration carries no
username and no password, the resolver consults the credential store keyed by
the repository url, and a stored pair is resolved exactly and applied as the
session's HTTP Basic authentication, with no OIDC traffic. -/
theorem keyring_fallback (w : PublishWorld) (cfg : RepositoryConfig) (u p : String)
    (hu : cfg.username = none) (hp : cfg.password = none)
    (hk : keyring_get_auth_info w.keyring cfg.url = some (u, p)) :
    resolve_credentials w cfg = (Except.ok (u, p), []) ∧
    repository_session_auth w cfg = Except.ok { username := u, password := p } := by
  have h1 : resolve_credentials w cfg = (Except.ok (u, p), []) := by
    simp [resolve_credentials, hu, hp, hk]
  exact ⟨h1, by simp [repository_session_auth, h1]⟩

/-- Concrete world of the keyring test: `(foo, barbaz)` stored for
`https://test.org/upload`. -/
def wKeyring : PublishWorld :=
  { env := [],
    audienceResponse := { status := 200, fields := [("audience", "testpypi")] },
    mintResponse := { status := 200, fields := [("token", "tok")] },
    ciIdentityToken := "unused",
    keyring := [("https://test.org/upload", "foo", "barbaz")] }

/-- Witness for C6 at the stored-credential world. -/
theorem keyring_fallback_witness :
    keyring_get_auth_info wKeyring.keyring cfgOidc.url = some ("foo", "barbaz") ∧
    resolve_credentials wKeyring cfgOidc = (Except.ok ("foo", "barbaz"), []) ∧
    repository_session_auth wKeyring cfgOidc =
      Except.ok { username := "foo", password := "barbaz" } := by
  have h := keyring_fallback wKeyring cfgOidc "foo" "barbaz" rfl rfl (by decide)
  exact ⟨by decide, h.1, h.2⟩

/-- Name and version metadata of one built artifact, as parsed from the
archive. -/
structure PackageMeta where
  name : String
  version : String
deriving DecidableEq

/-- Modelled from the spec: `get_release_urls` derives the public project
page URL from each package's name/version metadata, only for the official
indexes: an upload url under `https://upload.pypi.org/` maps to the
`https://pypi.org/project/...` page, one under `https://test.pypi.org/` to
the `https://test.pypi.org/project/...` page, and any other configured index
yields the empty set. -/
def get_release_urls (url : String) (packages : List PackageMeta) : Finset String :=
  if str_startswith url "https://upload.pypi.org/" = true then
    (packages.map fun p =>
      "https://pypi.org/project/" ++ p.name ++ "/" ++ p.version ++ "/").toFinset
  else if str_startswith url "https://test.pypi.org/" = true then
    (packages.map fun p =>
      "https://test.pypi.org/project/" ++ p.name ++ "/" ++ p.version ++ "/").toFinset
  else ∅

theorem toFinset_map_const {α β : Type} [DecidableEq β] (l : List α) (f : α → β) (c : β)
    (hne : l ≠ []) (hconst : ∀ x ∈ l, f x = c) : (l.map f).toFinset = {c} := by
  induction l with
  | nil => exact absurd rfl hne
  | cons a t ih =>
      rw [List.map_cons, List.toFinset_cons, hconst a (List.mem_cons_self a t)]
      cases t with
      | nil => simp
      | cons b t2 =>
          rw [ih (by simp) (fun x hx => hconst x (List.mem_cons_of_mem a hx))]
          exact Finset.insert_eq_self.mpr (Finset.mem_singleton_self c)

/-- C7: for every nonempty package set whose artifacts are all named `demo`
at version `0.0.1`, `get_release_urls` with the configured index url
`https://upload.pypi.org/legacy/` is exactly the singleton
`https://pypi.org/project/demo/0.0.1/`, and with any configured index url
outside the official domains (matching neither official upload-url scheme)
it is the empty set. -/
theorem release_urls_demo (packages : List PackageMeta)
    (hne : packages ≠ [])
    (hall : ∀ p ∈ packages, p.name = "demo" ∧ p.version = "0.0.1") :
    get_release_urls "https://upload.pypi.org/legacy/" packages =
      {"https://pypi.org/project/demo/0.0.1/"} ∧
    ∀ url : String, str_startswith url "https://upload.pypi.org/" = false →
      str_startswith url "https://test.pypi.org/" = false →
      get_release_urls url packages = ∅ := by
  constructor
  · have hsw : str_startswith "https://upload.pypi.org/legacy/" "https://upload.pypi.org/" = true := by
      decide
    unfold get_release_urls
    rw [if_pos hsw]
    exact toFinset_map_const packages _ _ hne (fun p hp => by
      rw [(hall p hp).1, (hall p hp).2]; decide)
  · intro url h1 h2
    unfold get_release_urls
    rw [if_neg (by simp [h1]), if_neg (by simp [h2])]

/-- Concrete package list of the release-url test. -/
def pkgsW : List PackageMeta := [{ name := "demo", version := "0.0.1" }]

/-- Witness for C7 at the concrete package list and the unofficial index url
of the test. -/
theorem release_urls_demo_witness :
    pkgsW ≠ [] ∧
    (∀ p ∈ pkgsW, p.name = "demo" ∧ p.version = "0.0.1") ∧
    get_release_urls "https://upload.pypi.org/legacy/" pkgsW =
      {"https://pypi.org/project/demo/0.0.1/"} ∧
    get_release_urls "https://example.pypi.org/legacy/" pkgsW = ∅ := by
  have h := release_urls_demo pkgsW (by decide) (by decide)
  exact ⟨by decide, by decide, h.1,
    h.2 "https://example.pypi.org/legacy/" (by decide) (by decide)⟩

/-- One artifact queued for upload, identified by its base filename. -/
structure PackageFile where
  base_filename : String
deriving DecidableEq

/-- Whether an artifact is a binary distribution (wheel). -/
def PackageFile.isWheel (p : PackageFile) : Bool := str_endswith p.base_filename ".whl"

/-- Modelled from the spec: the upload queue is reordered so that every
binary-distribution artifact (wheel) comes before every source artifact — a
stable partition by the wheel test — and artifacts are then uploaded one at a
time in this order. -/
def sort_packages_for_upload (ps : List PackageFile) : List PackageFile :=
  ps.filter PackageFile.isWheel ++ ps.filter (fun p => ! p.isWheel)

/-- C8: upload ordering — in the upload order produced from any queue, every
wheel sits strictly before every non-wheel artifact: a non-wheel at position
`i` and a wheel at position `j` force `j < i`, regardless of the order in
which the artifacts were enumerated or queued. -/
theorem wheels_uploaded_first (ps : List PackageFile) (i j : Nat)
    (hi : i < (sort_packages_for_upload ps).length)
    (hj : j < (sort_packages_for_upload ps).length)
    (hsi : ((sort_packages_for_upload ps)[i]).isWheel = false)
    (hwj : ((sort_packages_for_upload ps)[j]).isWheel = true) :
    j < i := by
  have hlen : (sort_packages_for_upload ps).length =
      (ps.filter PackageFile.isWheel).length + (ps.filter (fun p => ! p.isWheel)).length := by
    simp [sort_packages_for_upload]
  have hiA : (ps.filter PackageFile.isWheel).length ≤ i := by
    by_contra hlt
    push_neg at hlt
    have h1 : (sort_packages_for_upload ps)[i] = (ps.filter PackageFile.isWheel)[i] :=
      List.getElem_append_left hlt
    rw [h1] at hsi
    have hx : (ps.filter PackageFile.isWheel)[i] ∈ ps.filter PackageFile.isWheel :=
      List.getElem_mem hlt
    have hwheel := (List.mem_filter.mp hx).2
    rw [hsi] at hwheel
    simp at hwheel
  have hjA : j < (ps.filter PackageFile.isWheel).length := by
    by_contra hge
    push_neg at hge
    have hjB : j - (ps.filter PackageFile.isWheel).length <
        (ps.filter (fun p => ! p.isWheel)).length := by omega
    have h1 : (sort_packages_for_upload ps)[j] =
        (ps.filter (fun p => ! p.isWheel))[j - (ps.filter PackageFile.isWheel).length] :=
      List.getElem_append_right hge
    rw [h1] at hwj
    have hx : (ps.filter (fun p => ! p.isWheel))[j - (ps.filter PackageFile.isWheel).length] ∈
        ps.filter (fun p => ! p.isWheel) :=
      List.getElem_mem hjB
    have hsrc := (List.mem_filter.mp hx).2
    rw [hwj] at hsrc
    simp at hsrc
  omega

/-- Concrete queue of the ordering test: a source archive enumerated before a
wheel. -/
def psW : List PackageFile :=
  [{ base_filename := "demo-0.0.1.tar.gz" },
    { base_filename := "demo-0.0.1-py2.py3-none-any.whl" }]

/-- Witness for C8 at the concrete queue: the wheel ends up in front even
though it was queued last. -/
theorem wheels_uploaded_first_witness :
    sort_packages_for_upload psW =
      [{ base_filename := "demo-0.0.1-py2.py3-none-any.whl" },
        { base_filename := "demo-0.0.1.tar.gz" }] ∧
    (0 : Nat) < 1 := by
  refine ⟨by decide, ?_⟩
  exact wheels_uploaded_first psW 1 0 (by decide) (by decide) (by decide) (by decide)

end PdmPublish

namespace InstallPdm

/-- `REPO` of src/install-pdm.py. -/
def REPO : String := "https://github.com/pdm-project/pdm"

/-- Whitespace stripping at both ends of a character list, as Python `int()`
ignores surrounding whitespace. -/
def stripChars (cs : List Char) : List Char :=
  ((cs.dropWhile Char.isWhitespace).reverse.dropWhile Char.isWhitespace).reverse

/-- Python `str.upper` on a string, character by character. -/
def str_upper (s : String) : String := String.mk (s.toList.map Char.toUpper)

/-- Python `str.split(".")` on a character list: the separators delimit the
fragments, and an empty input yields one empty fragment. -/
def splitOnDot : List Char → List (List Char)
  | [] => [[]]
  | c :: rest =>
      if c = '.' then [] :: splitOnDot rest
      else
        match splitOnDot rest with
        | [] => [[c]]
        | h :: t => (c :: h) :: t

/-- The numeric value of a decimal digit list. -/
def digitsToNat (ds : List Char) : Nat :=
  ds.foldl (fun acc d => acc * 10 + (d.toNat - 48)) 0

/-- Python `int()` on one string fragment: optional surrounding whitespace,
an optional sign, then one or more decimal digits (digit-group underscores
not modelled); anything else raises `ValueError`, modelled as `none`. -/
def pyInt (cs : List Char) : Option Int :=
  match stripChars cs with
  | [] => none
  | c :: rest =>
      match (if c = '-' then (true, rest)
        else if c = '+' then (false, rest)
        else (false, c :: rest) : Bool × List Char) with
      | (neg, ds) =>
          if ds ≠ [] ∧ ds.all Char.isDigit then
            some (if neg then -(digitsToNat ds : Int) else (digitsToNat ds : Int))
          else none

/-- `tuple(map(int, self.version.split(".")))` of `Installer._install`,
`none` when `int()` raises `ValueError` on any component. -/
def parse_version_tuple (v : String) : Option (List Int) :=
  (splitOnDot v.toList).mapM pyInt

/-- Python tuple comparison `xs >= ys`: lexicographic on the common front,
with a shorter tuple smaller when it is a proper front of the longer one. -/
def tuple_ge : List Int → List Int → Bool
  | _, [] => true
  | [], _ :: _ => false
  | x :: xs, y :: ys =>
      if y < x then true
      else if x < y then false
      else tuple_ge xs ys

/-- The pip requirement string built by `Installer._install`
(src/install-pdm.py lines 265-278): `HEAD` (case-insensitively) installs
from the git main branch with the `[locked]` extra per `frozen_deps`; an
all-integer dotted version keeps the `[locked]` extra exactly when the parsed
tuple is at least `(2, 17)` and `frozen_deps` holds; any other version is a
plain `pdm==` pin; an absent (or empty, hence falsy) version installs the
latest with the extra per `frozen_deps`. -/
def install_requirement (version : Option String) (frozen_deps : Bool) : String :=
  match version with
  | none => "pdm" ++ (if frozen_deps then "[locked]" else "")
  | some v =>
      if v = "" then "pdm" ++ (if frozen_deps then "[locked]" else "")
      else if str_upper v = "HEAD" then
        "pdm" ++ (if frozen_deps then "[locked]" else "") ++ " @ git+" ++ REPO ++ ".git@main"
      else
        "pdm" ++
          (match parse_version_tuple v with
            | none => ""
            | some parsed =>
                if tuple_ge parsed [2, 17] then
                  (if frozen_deps then "[locked]" else "")
                else "") ++
          "==" ++ v

/-- C10: the installer's pip requirement string — `HEAD` (case-insensitive)
yields the git main-branch requirement, with `[locked]` exactly when
`frozen_deps`; a dotted all-integer version yields `pdm[locked]==version`
exactly when the parsed tuple is at least `(2, 17)` and `frozen_deps` holds,
else `pdm==version`; a non-numeric version yields `pdm==version` with no
extra; and no version yields `pdm[locked]` or `pdm` per `frozen_deps`. -/
theorem install_requirement_spec :
    (∀ v frozen, str_upper v = "HEAD" →
      install_requirement (some v) frozen =
        "pdm" ++ (if frozen then "[locked]" else "") ++
          " @ git+https://github.com/pdm-project/pdm.git@main") ∧
    (∀ v frozen parsed, v ≠ "" → str_upper v ≠ "HEAD" →
      parse_version_tuple v = some parsed →
      install_requirement (some v) frozen =
        (if frozen && tuple_ge parsed [2, 17] then "pdm[locked]==" ++ v
          else "pdm==" ++ v)) ∧
    (∀ v frozen, v ≠ "" → str_upper v ≠ "HEAD" → parse_version_tuple v = none →
      install_requirement (some v) frozen = "pdm==" ++ v) ∧
    (∀ frozen, install_requirement none frozen =
      (if frozen then "pdm[locked]" else "pdm")) := by
  refine ⟨?_, ?_, ?_, ?_⟩
  · intro v frozen hh
    have hv : v ≠ "" := by
      intro h
      subst h
      exact absurd hh (by decide)
    simp only [install_requirement]
    rw [if_neg hv, if_pos hh]
    cases frozen <;> rfl
  · intro v frozen parsed hv hh hparse
    simp only [install_requirement]
    rw [if_neg hv, if_neg hh, hparse]
    show ("pdm" ++
        (if tuple_ge parsed [2, 17] then (if frozen then "[locked]" else "") else "") ++
        "==" ++ v) = _
    cases frozen <;> cases htg : tuple_ge parsed [2, 17] <;> rfl
  · intro v frozen hv hh hparse
    simp only [install_requirement]
    rw [if_neg hv, if_neg hh, hparse]
    rfl
  · intro frozen
    cases frozen <;> rfl

/-- Witness for C10 across the four requirement shapes at concrete
versions. -/
theorem install_requirement_spec_witness :
    str_upper "head" = "HEAD" ∧
    install_requirement (some "head") true =
      "pdm[locked] @ git+https://github.com/pdm-project/pdm.git@main" ∧
    parse_version_tuple "2.17" = some [2, 17] ∧
    install_requirement (some "2.17") true = "pdm[locked]==2.17" ∧
    install_requirement (some "2.16.1") true = "pdm==2.16.1" ∧
    parse_version_tuple "dev" = none ∧
    install_requirement (some "dev") false = "pdm==dev" ∧
    install_requirement none true = "pdm[locked]" := by
  have h := install_requirement_spec
  refine ⟨by decide, ?_, by decide, ?_, ?_, by decide, ?_, ?_⟩
  · have h1 := h.1 "head" true (by decide)
    rw [h1]
    decide
  · have h2 := h.2.1 "2.17" true [2, 17] (by decide) (by decide) (by decide)
    rw [h2]
    decide
  · have h3 := h.2.1 "2.16.1" true [2, 16, 1] (by decide) (by decide) (by decide)
    rw [h3]
    decide
  · have h4 := h.2.2.1 "dev" false (by decide) (by decide) (by decide)
    rw [h4]
    decide
  · have h5 := h.2.2.2 true
    rw [h5]
    decide

end InstallPdm
